import Mathlib

/-!
Shallow embedding of the client-side data-synchronization layer of the
`ai-trading` frontend: the request retry helper (`apiUtils.retryRequest`),
the WebSocket connection manager (`WebSocketManager`), the in-memory TTL
cache (`CacheManager`), and the five API hooks (`useApi`, `usePollingApi`,
`usePaginatedApi`, `useCachedApi`, `useDebouncedApi`).

Conventions of the embedding:
  * JavaScript `Map`s become association lists with overwrite-on-set
    semantics, or total functions `String → Option _`.
  * Timestamps (`Date.now()`) are integers, passed explicitly.
  * JavaScript truthiness of an optional numeric field (`item.ttl && ...`,
    `!ttl`, `parsed.timestamp && ...`) is modelled as "present and nonzero".
  * `undefined < n` evaluates to `false` in JavaScript; lookups of absent
    map keys therefore use an explicit `Option` match whose `none` branch
    is `false`.
  * Asynchronous code is split at its `await` points: the synchronous
    prefix of a function becomes a "start" step and the continuation that
    runs when the promise settles becomes a "settle" step, each a pure
    state transformer.  Invocations of the underlying network operation
    are counted explicitly.
-/

/-! ### Error taxonomy and normalization (`apiUtils.handleError`) -/

/-- Error categories named by the spec: network, server, validation,
cancellation.  The TypeScript source carries no category tag on errors;
this tag is metadata used to express claims about retry behaviour per
category, and the embedded code never inspects it. -/
inductive ErrCategory where
  | network
  | server
  | validation
  | cancellation
deriving DecidableEq, Repr

/-- Body of an HTTP error response, as read by `handleError`
(`error.response.data?.code`, `.message`, `.details`). -/
structure ErrBody where
  code : Option String
  message : Option String
  details : Option String
deriving DecidableEq, Repr

/-- A raw JavaScript error as inspected by `apiUtils.handleError`:
a message, an optional `response` (with optional body) and a `request`
flag (truthiness of `error.request`). -/
structure RawError where
  message : String
  response : Option (Option ErrBody)
  request : Bool
  category : ErrCategory
deriving DecidableEq, Repr

/-- The normalized error shape `{code, message, details?}` produced by
`apiUtils.handleError` (the `timestamp` field, a wall-clock string, is
omitted from the embedding). -/
structure ApiError where
  code : String
  message : String
  details : Option String
deriving DecidableEq, Repr

namespace apiUtils

/-- Embedding of `apiUtils.handleError` (src/unnamed/part_001:545-565):
with a `response`, take code/message from its body with fallbacks;
with only a `request`, report `NETWORK_ERROR`; otherwise `UNKNOWN_ERROR`. -/
def handleError (e : RawError) : ApiError :=
  match e.response with
  | some body =>
      { code := (body.bind ErrBody.code).getD "UNKNOWN_ERROR"
        message := (body.bind ErrBody.message).getD e.message
        details := body.bind ErrBody.details }
  | none =>
      if e.request then
        { code := "NETWORK_ERROR", message := "网络连接失败，请检查网络设置", details := none }
      else
        { code := "UNKNOWN_ERROR", message := e.message, details := none }

end apiUtils

/-! ### Retry Executor (`apiUtils.retryRequest`) -/

/-- Result of a full run of `retryRequest`: the settled outcome (an
`Except` whose error is the thrown value — `none` models JavaScript
throwing the still-`undefined` `lastError` when the loop body never ran),
the number of invocations of the operation, and the list of back-off
waits performed, in order. -/
structure RetryResult (E A : Type) where
  result : Except (Option E) A
  attempts : ℕ
  delays : List ℕ

namespace apiUtils

/-- The loop of `retryRequest` (src/unnamed/part_001:594-613), from
iteration `i` with accumulated `lastError` and performed `delays`.  Each
iteration invokes `op`; on failure with `i < maxRetries - 1` it waits
`delay * 2 ^ i` and continues; leaving the loop throws `lastError`. -/
def retryGo (op : ℕ → Except E A) (maxRetries delay : ℕ) (i : ℕ)
    (lastError : Option E) (delays : List ℕ) : RetryResult E A :=
  if h : i < maxRetries then
    match op i with
    | .ok a => ⟨.ok a, i + 1, delays⟩
    | .error e =>
        if i < maxRetries - 1 then
          retryGo op maxRetries delay (i + 1) (some e) (delays ++ [delay * 2 ^ i])
        else
          retryGo op maxRetries delay (i + 1) (some e) delays
  else
    ⟨.error lastError, i, delays⟩
termination_by maxRetries - i

/-- Embedding of `apiUtils.retryRequest` with the operation modelled as a
function from the (0-based) attempt index to that attempt's outcome. -/
def retryRequest (op : ℕ → Except E A) (maxRetries : ℕ := 3) (delay : ℕ := 1000) :
    RetryResult E A :=
  retryGo op maxRetries delay 0 none []

end apiUtils

/-- Unfolding equation for `retryGo` in the in-loop case. -/
theorem retryGo_of_lt (op : ℕ → Except E A) (maxRetries delay i : ℕ)
    (lastError : Option E) (delays : List ℕ) (h : i < maxRetries) :
    apiUtils.retryGo op maxRetries delay i lastError delays =
      match op i with
      | .ok a => ⟨.ok a, i + 1, delays⟩
      | .error e =>
          if i < maxRetries - 1 then
            apiUtils.retryGo op maxRetries delay (i + 1) (some e) (delays ++ [delay * 2 ^ i])
          else
            apiUtils.retryGo op maxRetries delay (i + 1) (some e) delays := by
  rw [apiUtils.retryGo]
  simp [h]

/-- Unfolding equation for `retryGo` once the loop is exhausted. -/
theorem retryGo_of_ge (op : ℕ → Except E A) (maxRetries delay i : ℕ)
    (lastError : Option E) (delays : List ℕ) (h : ¬ i < maxRetries) :
    apiUtils.retryGo op maxRetries delay i lastError delays =
      ⟨.error lastError, i, delays⟩ := by
  rw [apiUtils.retryGo]
  simp [h]

/-- On an always-failing operation, the tail of the loop from iteration `i`
performs the remaining `maxRetries - i` attempts, waits `delay * 2 ^ m`
after every iteration `m` except the last, and throws the final error. -/
theorem retryGo_allFail (op : ℕ → Except E A) (err : ℕ → E)
    (hop : ∀ m, op m = .error (err m)) (n d : ℕ) :
    ∀ k i lastError delays, i + k = n →
      apiUtils.retryGo op n d i lastError delays =
        ⟨.error (if k = 0 then lastError else some (err (n - 1))), n,
          delays ++ (List.range' i (n - 1 - i)).map (fun m => d * 2 ^ m)⟩ := by
  intro k
  induction k with
  | zero =>
      intro i lastError delays hi
      have hi' : i = n := by omega
      rw [hi', retryGo_of_ge op n d n lastError delays (lt_irrefl n)]
      simp
  | succ k ih =>
      intro i lastError delays hi
      have hlt : i < n := by omega
      rw [retryGo_of_lt op n d i lastError delays hlt, hop i]
      by_cases hlast : i < n - 1
      · simp only [if_pos hlast]
        rw [ih (i + 1) (some (err i)) (delays ++ [d * 2 ^ i]) (by omega)]
        have hk : ¬ (k = 0) := by omega
        have hrange : n - 1 - i = (n - 1 - (i + 1)) + 1 := by omega
        simp only [if_neg hk]
        rw [hrange, List.range'_succ, List.map_cons, List.append_assoc]
        simp
      · simp only [if_neg hlast]
        have hi1 : i = n - 1 := by omega
        have hk0 : k = 0 := by omega
        rw [ih (i + 1) (some (err i)) delays (by omega)]
        subst hk0
        have h1 : n - 1 - i = 0 := by omega
        have h2 : n - 1 - (i + 1) = 0 := by omega
        simp [h1, h2, hi1]

/-- An error value tagged with its spec category.  `retryRequest` receives
it opaquely; the embedding uses it to express category-dependent claims. -/
structure OpError where
  category : ErrCategory
  message : String
deriving DecidableEq, Repr

/-- A concrete cancellation error. -/
def cancelErr : OpError := ⟨.cancellation, "Request canceled"⟩

/-- C3: for every always-failing operation, `retryRequest` with
`maxRetries = n` and base delay `d` performs exactly `n` attempts, waits
`d * 2 ^ (k - 1)` between attempts `k` and `k + 1` (so the delay list is
`[d * 2 ^ 0, …, d * 2 ^ (n - 2)]`), and then propagates the last error. -/
theorem retryRequest_always_failing (op : ℕ → Except E A) (err : ℕ → E)
    (hop : ∀ m, op m = .error (err m)) (n d : ℕ) (hn : 1 ≤ n) :
    (apiUtils.retryRequest op n d).attempts = n ∧
    (apiUtils.retryRequest op n d).delays = (List.range (n - 1)).map (fun m => d * 2 ^ m) ∧
    (apiUtils.retryRequest op n d).result = .error (some (err (n - 1))) := by
  unfold apiUtils.retryRequest
  rw [retryGo_allFail op err hop n d n 0 none [] (by omega)]
  have hn0 : ¬ (n = 0) := by omega
  refine ⟨rfl, ?_, by simp [hn0]⟩
  simp [List.range_eq_range']

/-- Witness for C3 at `n = 3`, `d = 100` against an operation failing with
its attempt index: 3 attempts, delays 100 then 200, last error surfaced. -/
theorem retryRequest_always_failing_witness :
    (∀ m, (fun i => (Except.error i : Except ℕ ℕ)) m = Except.error m) ∧ 1 ≤ 3 ∧
    ((apiUtils.retryRequest (fun i => (Except.error i : Except ℕ ℕ)) 3 100).attempts = 3 ∧
     (apiUtils.retryRequest (fun i => (Except.error i : Except ℕ ℕ)) 3 100).delays = [100, 200] ∧
     (apiUtils.retryRequest (fun i => (Except.error i : Except ℕ ℕ)) 3 100).result =
       .error (some 2)) :=
  ⟨fun _ => rfl, by decide,
    retryRequest_always_failing (fun i => (Except.error i : Except ℕ ℕ)) (fun m => m)
      (fun _ => rfl) 3 100 (by decide)⟩

/-- C7 counterexample: an operation that always fails with a cancellation
error is retried all the same — with `maxRetries = 3` the executor performs
3 attempts, whereas the claim demands it stop after the single attempt in
which the cancellation occurred. -/
theorem retryRequest_cancellation_counterexample :
    (apiUtils.retryRequest (fun _ => (Except.error cancelErr : Except OpError ℕ)) 3 1000).attempts
      = 3 ∧
    (apiUtils.retryRequest (fun _ => (Except.error cancelErr : Except OpError ℕ)) 3 1000).attempts
      ≠ 1 := by
  unfold apiUtils.retryRequest
  rw [retryGo_allFail (fun _ => (Except.error cancelErr : Except OpError ℕ))
    (fun _ => cancelErr) (fun _ => rfl) 3 1000 3 0 none [] rfl]
  exact ⟨rfl, by decide⟩

/-- C7 (amended): `retryRequest` never inspects the error it catches, so a
failure is retried (when attempts remain) regardless of its category —
Validation and Cancellation included.  A first attempt failing with any
category-tagged error is followed by a second attempt after one base-delay
wait, and a second-attempt success is returned. -/
theorem retryRequest_retries_every_category (op : ℕ → Except OpError A) (e : OpError) (a : A)
    (h0 : op 0 = .error e) (h1 : op 1 = .ok a) (n d : ℕ) (hn : 2 ≤ n) :
    (apiUtils.retryRequest op n d).result = .ok a ∧
    (apiUtils.retryRequest op n d).attempts = 2 ∧
    (apiUtils.retryRequest op n d).delays = [d] := by
  have e1 : apiUtils.retryGo op n d 0 none [] =
      apiUtils.retryGo op n d 1 (some e) [d * 2 ^ 0] := by
    rw [retryGo_of_lt _ _ _ _ _ _ (show 0 < n by omega), h0]
    simp [show (0:ℕ) < n - 1 by omega]
  have e2 : apiUtils.retryGo op n d 1 (some e) [d * 2 ^ 0] =
      ⟨.ok a, 2, [d * 2 ^ 0]⟩ := by
    rw [retryGo_of_lt _ _ _ _ _ _ (show 1 < n by omega), h1]
  unfold apiUtils.retryRequest
  rw [e1, e2]
  simp

/-- Witness for the amended C7: a first attempt failing with a cancellation
error followed by a success — the executor retries and returns the success. -/
theorem retryRequest_retries_every_category_witness :
    ((fun i => if i = 0 then (Except.error cancelErr : Except OpError ℕ) else .ok 7) 0 =
      .error cancelErr) ∧
    ((fun i => if i = 0 then (Except.error cancelErr : Except OpError ℕ) else .ok 7) 1 =
      .ok 7) ∧ 2 ≤ 3 ∧
    ((apiUtils.retryRequest
        (fun i => if i = 0 then (Except.error cancelErr : Except OpError ℕ) else .ok 7)
        3 100).result = .ok 7 ∧
     (apiUtils.retryRequest
        (fun i => if i = 0 then (Except.error cancelErr : Except OpError ℕ) else .ok 7)
        3 100).attempts = 2 ∧
     (apiUtils.retryRequest
        (fun i => if i = 0 then (Except.error cancelErr : Except OpError ℕ) else .ok 7)
        3 100).delays = [100]) :=
  ⟨rfl, rfl, by decide,
    retryRequest_retries_every_category
      (fun i => if i = 0 then (Except.error cancelErr : Except OpError ℕ) else .ok 7)
      cancelErr 7 rfl rfl 3 100 (by decide)⟩

/-! ### TTL Cache Store (`CacheManager`, src/unnamed/part_001:724-766) -/

namespace CacheManager

/-- One cache entry `{data, timestamp, ttl?}`.  The `ttl` field holds the
absolute expiry time in milliseconds (`Date.now() + ttl * 1000`), or `none`
when the source stored `undefined`. -/
structure Entry (α : Type) where
  data : α
  timestamp : ℤ
  ttl : Option ℤ
deriving DecidableEq, Repr

/-- The backing `Map` of a `CacheManager`, as a total function from keys. -/
def Store (α : Type) := String → Option (Entry α)

/-- A freshly constructed `CacheManager` has an empty map. -/
def Store.empty : Store α := fun _ => none

/-- Embedding of `CacheManager.set`: stores `{data, timestamp: Date.now(),
ttl: ttl ? Date.now() + ttl * 1000 : undefined}` — a JavaScript-falsy `ttl`
argument (absent or zero) stores `undefined`. -/
def set (key : String) (data : α) (ttl : Option ℤ) (now : ℤ) (s : Store α) : Store α :=
  fun k =>
    if k = key then
      some
        { data := data
          timestamp := now
          ttl :=
            match ttl with
            | some t => if t = 0 then none else some (now + t * 1000)
            | none => none }
    else s k

/-- Embedding of `CacheManager.delete`. -/
def del (key : String) (s : Store α) : Store α :=
  fun k => if k = key then none else s k

/-- Embedding of `CacheManager.get`: a missing key yields `null`; an entry
whose `ttl` field is truthy and in the past is deleted and yields `null`;
otherwise the stored data is returned.  The pair carries the store after
the call, capturing the purge side effect. -/
def get (key : String) (now : ℤ) (s : Store α) : Option α × Store α :=
  match s key with
  | none => (none, s)
  | some item =>
      match item.ttl with
      | some e => if e ≠ 0 ∧ now > e then (none, del key s) else (some item.data, s)
      | none => (some item.data, s)

/-- Embedding of `CacheManager.clear`. -/
def clear (_s : Store α) : Store α := fun _ => none

/-- Embedding of `CacheManager.cleanExpired`: removes every entry whose
`ttl` field is truthy and in the past. -/
def cleanExpired (now : ℤ) (s : Store α) : Store α :=
  fun k =>
    match s k with
    | some item =>
        match item.ttl with
        | some e => if e ≠ 0 ∧ now > e then none else some item
        | none => some item
    | none => none

end CacheManager

/-- C2: `get` never returns an expired value, sweep or no sweep — an entry
set with positive `ttl` whose expiry time `ts + ttl * 1000` is before `now`
yields `none` from `get`, which also purges the entry from the store. -/
theorem cacheManager_get_expired_absent (s : CacheManager.Store α) (key : String) (v : α)
    (t ts now : ℤ) (hts : 0 ≤ ts) (ht : 0 < t) (hnow : ts + t * 1000 < now) :
    (CacheManager.get key now (CacheManager.set key v (some t) ts s)).1 = none ∧
    (CacheManager.get key now (CacheManager.set key v (some t) ts s)).2 key = none := by
  have ht0 : ¬ (t = 0) := by omega
  have hexp : ts + t * 1000 ≠ 0 := by nlinarith
  have hgt : now > ts + t * 1000 := hnow
  simp [CacheManager.get, CacheManager.set, CacheManager.del, ht0, hexp, hgt]

/-- Witness for C2: key set at time 0 with ttl 5 s, read at 6000 ms. -/
theorem cacheManager_get_expired_absent_witness :
    (0 ≤ (0:ℤ)) ∧ (0 < (5:ℤ)) ∧ ((0:ℤ) + 5 * 1000 < 6000) ∧
    ((CacheManager.get "k" 6000
        (CacheManager.set "k" (42:ℕ) (some 5) 0 CacheManager.Store.empty)).1 = none ∧
     (CacheManager.get "k" 6000
        (CacheManager.set "k" (42:ℕ) (some 5) 0 CacheManager.Store.empty)).2 "k" = none) :=
  ⟨by decide, by decide, by decide,
    cacheManager_get_expired_absent CacheManager.Store.empty "k" 42 5 0 6000
      (by decide) (by decide) (by decide)⟩

/-- C10: `set(key, value, 0)` creates an entry with no expiry — the zero
`ttl` argument is JavaScript-falsy, so `undefined` is stored: `get`
returns the value at every later time without purging anything, and
`cleanExpired` never removes the entry. -/
theorem cacheManager_set_ttl_zero_never_expires (s : CacheManager.Store α) (key : String)
    (v : α) (ts : ℤ) :
    (∀ now, (CacheManager.get key now (CacheManager.set key v (some 0) ts s)).1 = some v) ∧
    (∀ now k,
      (CacheManager.get key now (CacheManager.set key v (some 0) ts s)).2 k =
        CacheManager.set key v (some 0) ts s k) ∧
    (∀ now,
      CacheManager.cleanExpired now (CacheManager.set key v (some 0) ts s) key =
        CacheManager.set key v (some 0) ts s key) := by
  refine ⟨fun now => ?_, fun now k => ?_, fun now => ?_⟩ <;>
    simp [CacheManager.get, CacheManager.set, CacheManager.cleanExpired]

/-! ### Connection Manager (`WebSocketManager`, src/unnamed/part_001:633-717)

The manager's two `Map`s become association lists with overwrite-on-set
semantics.  Each `new WebSocket(...)` produces a fresh transport identity;
`liveIds` tracks the sockets created and not yet closed.  Environment
events (`onopen` / `onerror` / `onclose` firing, caller calls) drive a step
function whose output records any reconnect the handler schedules via
`setTimeout` and whether `onError` was invoked. -/

namespace WebSocketManager

/-- Association-list lookup, mirroring `Map.get`. -/
def alookup (k : String) : List (String × ℕ) → Option ℕ
  | [] => none
  | (k', v) :: rest => if k' = k then some v else alookup k rest

/-- Association-list removal, mirroring `Map.delete`. -/
def aerase (k : String) (l : List (String × ℕ)) : List (String × ℕ) :=
  l.filter (fun p => p.1 ≠ k)

/-- Association-list write, mirroring `Map.set` (overwrites any previous
binding of the key). -/
def aset (k : String) (v : ℕ) (l : List (String × ℕ)) : List (String × ℕ) :=
  (k, v) :: aerase k l

/-- `private maxReconnectAttempts = 5`. -/
def maxReconnectAttempts : ℕ := 5

/-- `private reconnectDelay = 1000`. -/
def reconnectDelay : ℕ := 1000

/-- The manager's state: the id for the next socket, every socket created
(with its url), the sockets not yet closed, and the two `Map`s
(`connections`, `reconnectAttempts`). -/
structure Manager where
  nextId : ℕ
  transports : List (ℕ × String)
  liveIds : List ℕ
  conns : List (String × ℕ)
  attempts : List (String × ℕ)
deriving DecidableEq, Repr

/-- A freshly constructed `WebSocketManager`. -/
def Manager.init : Manager := ⟨0, [], [], [], []⟩

/-- Events driving the manager: the two caller entry points and the three
socket callbacks (`onopen`, `onerror`, `onclose`), the latter identified
by the socket they fire on and the url their closure captured. -/
inductive Event where
  | connect (url : String)
  | disconnect (url : String)
  | wsOpen (tid : ℕ) (url : String)
  | wsError (tid : ℕ) (url : String)
  | wsClose (tid : ℕ) (url : String) (wasClean : Bool)
deriving DecidableEq, Repr

/-- Observable output of one step: the reconnect scheduled by `onclose`
(url, attempt number, delay in ms), if any, and whether the caller's
`onError` was invoked. -/
structure StepOut where
  sched : Option (String × ℕ × ℕ)
  errorReported : Bool
deriving DecidableEq, Repr

/-- One step of the manager.

`connect` creates a socket and overwrites `connections[url]` with it (the
previous socket, if any, is neither closed nor re-linked).  `disconnect`
closes and untracks the mapped socket, if any.  `onopen` resets the
attempt counter to 0.  `onerror` reports through `onError` and changes no
state.  `onclose` deletes `connections[url]` and, when the closure was not
clean **and** `reconnectAttempts.get(url)! < maxReconnectAttempts` — which
in JavaScript is `undefined < 5 = false` when the key is absent —
increments the counter and schedules `connect` after
`reconnectDelay * attempts`. -/
def step (ev : Event) (m : Manager) : Manager × StepOut :=
  match ev with
  | .connect url =>
      ({ m with
          nextId := m.nextId + 1
          transports := (m.nextId, url) :: m.transports
          liveIds := m.nextId :: m.liveIds
          conns := aset url m.nextId m.conns },
        ⟨none, false⟩)
  | .disconnect url =>
      match alookup url m.conns with
      | some tid =>
          ({ m with
              liveIds := m.liveIds.erase tid
              conns := aerase url m.conns
              attempts := aerase url m.attempts },
            ⟨none, false⟩)
      | none => (m, ⟨none, false⟩)
  | .wsOpen _tid url =>
      ({ m with attempts := aset url 0 m.attempts }, ⟨none, false⟩)
  | .wsError _tid _url => (m, ⟨none, true⟩)
  | .wsClose tid url wasClean =>
      let m1 := { m with liveIds := m.liveIds.erase tid, conns := aerase url m.conns }
      if !wasClean &&
          (match alookup url m.attempts with
            | some a => decide (a < maxReconnectAttempts)
            | none => false) then
        let a := (alookup url m.attempts).getD 0 + 1
        ({ m1 with attempts := aset url a m1.attempts },
          ⟨some (url, a, reconnectDelay * a), false⟩)
      else (m1, ⟨none, false⟩)

/-- Run a sequence of events, collecting every scheduled reconnect. -/
def run (evs : List Event) (m : Manager) : Manager × List (String × ℕ × ℕ) :=
  match evs with
  | [] => (m, [])
  | ev :: rest =>
      let r1 := step ev m
      let r2 := run rest r1.1
      (r2.1, r1.2.sched.toList ++ r2.2)

/-- The sockets created for `url` and not yet closed. -/
def openTo (url : String) (m : Manager) : List ℕ :=
  m.liveIds.filter (fun t => decide ((m.transports.lookup t) = some url))

end WebSocketManager

namespace WebSocketManager

/-- Looking up a key just written returns the written value. -/
theorem alookup_aset_self (k : String) (v : ℕ) (l : List (String × ℕ)) :
    alookup k (aset k v l) = some v := by
  simp [alookup, aset]

/-- Erasing a key removes every binding of it. -/
theorem countP_aerase_self (k : String) (l : List (String × ℕ)) :
    (aerase k l).countP (fun p => decide (p.1 = k)) = 0 := by
  rw [List.countP_eq_zero]
  intro p hp
  unfold aerase at hp
  rw [List.mem_filter] at hp
  simp only [decide_eq_true_eq] at hp ⊢
  simpa using hp.2

/-- Erasing can only lower the number of bindings of any key. -/
theorem countP_aerase_le (k url : String) (l : List (String × ℕ)) :
    (aerase k l).countP (fun p => decide (p.1 = url)) ≤
      l.countP (fun p => decide (p.1 = url)) :=
  (List.filter_sublist l).countP_le _

/-- Overwrite-on-set keeps at most one binding per key. -/
theorem countP_aset_le_one (k : String) (v : ℕ) (url : String) (l : List (String × ℕ))
    (h : l.countP (fun p => decide (p.1 = url)) ≤ 1) :
    (aset k v l).countP (fun p => decide (p.1 = url)) ≤ 1 := by
  unfold aset
  rw [List.countP_cons]
  by_cases hk : url = k
  · subst hk
    rw [countP_aerase_self]
    simp
  · have h1 := countP_aerase_le k url l
    have h2 : (decide ((k, v).1 = url) : Bool) = false := by
      simp
      exact fun he => hk he.symm
    rw [h2]
    simp only [Bool.false_eq_true, if_false]
    omega

/-- The `connections` map binds each url at most once. -/
def trackedOnce (m : Manager) : Prop :=
  ∀ url, m.conns.countP (fun p => decide (p.1 = url)) ≤ 1

/-- Every step preserves `trackedOnce`. -/
theorem step_trackedOnce (ev : Event) (m : Manager) (h : trackedOnce m) :
    trackedOnce (step ev m).1 := by
  cases ev with
  | connect url =>
      intro u
      exact countP_aset_le_one _ _ _ _ (h u)
  | disconnect url =>
      intro u
      simp only [step]
      split
      · exact le_trans (countP_aerase_le _ _ _) (h u)
      · exact h u
  | wsOpen tid url =>
      intro u
      exact h u
  | wsError tid url =>
      intro u
      exact h u
  | wsClose tid url wasClean =>
      intro u
      simp only [step]
      split
      · exact le_trans (countP_aerase_le _ _ _) (h u)
      · exact le_trans (countP_aerase_le _ _ _) (h u)

/-- Any run from a `trackedOnce` state stays `trackedOnce`. -/
theorem run_trackedOnce (evs : List Event) :
    ∀ m, trackedOnce m → trackedOnce (run evs m).1 := by
  induction evs with
  | nil => exact fun m h => h
  | cons ev rest ih => exact fun m h => ih _ (step_trackedOnce ev m h)

end WebSocketManager

/-- C5 (amended): across every sequence of events the manager's
`connections` map holds at most one channel per address — a second
`connect` to a connected address replaces the tracked channel — but the
replaced transport is not closed: `connect` never removes a live socket,
so the number of simultaneously open transports to one address can exceed
one. -/
theorem wsManager_tracks_at_most_one (evs : List WebSocketManager.Event) :
    (∀ url, ((WebSocketManager.run evs WebSocketManager.Manager.init).1.conns.countP
        (fun p => decide (p.1 = url))) ≤ 1) ∧
    (∀ (m : WebSocketManager.Manager) (url : String) (tid : ℕ),
      tid ∈ m.liveIds → tid ∈ (WebSocketManager.step (.connect url) m).1.liveIds) := by
  constructor
  · exact WebSocketManager.run_trackedOnce evs WebSocketManager.Manager.init
      (fun url => by simp [WebSocketManager.Manager.init])
  · intro m url tid htid
    exact List.mem_cons_of_mem _ htid

/-- Witness for the amended C5: after two `connect`s to the same url the
map still tracks exactly one socket, and the first socket is still live. -/
theorem wsManager_tracks_at_most_one_witness :
    (((WebSocketManager.run [.connect "u", .connect "u"]
        WebSocketManager.Manager.init).1.conns.countP
          (fun p => decide (p.1 = "u"))) ≤ 1) ∧
    0 ∈ (WebSocketManager.step (.connect "u") WebSocketManager.Manager.init).1.liveIds ∧
    0 ∈ (WebSocketManager.step (.connect "u")
          (WebSocketManager.step (.connect "u") WebSocketManager.Manager.init).1).1.liveIds :=
  ⟨(wsManager_tracks_at_most_one [.connect "u", .connect "u"]).1 "u",
    by decide,
    (wsManager_tracks_at_most_one []).2
      (WebSocketManager.step (.connect "u") WebSocketManager.Manager.init).1 "u" 0 (by decide)⟩

/-- C5 counterexample: two `connect`s to the same address leave two
sockets open simultaneously — the second `connect` overwrites the map
entry without closing the first socket — refuting "at most one open
transport per address". -/
theorem wsManager_double_connect_counterexample :
    (WebSocketManager.openTo "u"
      (WebSocketManager.run [.connect "u", .connect "u"]
        WebSocketManager.Manager.init).1).length = 2 ∧
    ¬ (WebSocketManager.openTo "u"
      (WebSocketManager.run [.connect "u", .connect "u"]
        WebSocketManager.Manager.init).1).length ≤ 1 := by
  exact ⟨by decide, by decide⟩

/-- C4 (amended): for a channel whose attempt counter is initialized (it
has opened at least once since `connect`, or a reconnect was already
scheduled), a non-clean closure with counter `a < 5` schedules reconnect
attempt `a + 1` after `1000 * (a + 1)` ms (linear backoff, attempt
numbers from 1); a clean close never schedules one; a successful open
resets the counter to 0; a counter at 5 (`maxReconnectAttempts`) blocks
any further attempt; and a non-clean closure of a channel with no counter
entry (never opened) schedules nothing. -/
theorem wsManager_reconnect_policy (m : WebSocketManager.Manager) (tid : ℕ) (url : String)
    (a : ℕ) :
    (WebSocketManager.alookup url m.attempts = some a → a < 5 →
      (WebSocketManager.step (.wsClose tid url false) m).2.sched
          = some (url, a + 1, 1000 * (a + 1)) ∧
      WebSocketManager.alookup url
          (WebSocketManager.step (.wsClose tid url false) m).1.attempts = some (a + 1)) ∧
    ((WebSocketManager.step (.wsClose tid url true) m).2.sched = none) ∧
    (WebSocketManager.alookup url (WebSocketManager.step (.wsOpen tid url) m).1.attempts
        = some 0) ∧
    (WebSocketManager.alookup url m.attempts = some a → 5 ≤ a →
      (WebSocketManager.step (.wsClose tid url false) m).2.sched = none) ∧
    (WebSocketManager.alookup url m.attempts = none →
      (WebSocketManager.step (.wsClose tid url false) m).2.sched = none) := by
  refine ⟨fun h1 h2 => ?_, ?_, ?_, fun h1 h2 => ?_, fun h1 => ?_⟩
  · constructor
    · simp [WebSocketManager.step, h1, WebSocketManager.maxReconnectAttempts, h2,
        WebSocketManager.reconnectDelay]
    · simp [WebSocketManager.step, h1, WebSocketManager.maxReconnectAttempts, h2,
        WebSocketManager.alookup_aset_self]
  · simp [WebSocketManager.step]
  · simp [WebSocketManager.step, WebSocketManager.alookup_aset_self]
  · have h3 : ¬ a < 5 := by omega
    simp [WebSocketManager.step, h1, WebSocketManager.maxReconnectAttempts, h3]
  · simp [WebSocketManager.step, h1]

/-- A populated manager used to instantiate the reconnect policy: two
sockets, url `u` with 2 reconnect attempts, url `v` with 5, url `w`
untracked. -/
def sampleManager : WebSocketManager.Manager :=
  ⟨2, [(0, "u"), (1, "v")], [0, 1], [("u", 0), ("v", 1)], [("u", 2), ("v", 5)]⟩

/-- Witness for the amended C4 on `sampleManager`: a non-clean close of
`u` (counter 2) schedules attempt 3 after 3000 ms; a clean close
schedules nothing; `onopen` resets the counter; `v`'s counter at 5 and
the untracked `w` block reconnection. -/
theorem wsManager_reconnect_policy_witness :
    (WebSocketManager.alookup "u" sampleManager.attempts = some 2) ∧ 2 < 5 ∧
    ((WebSocketManager.step (.wsClose 0 "u" false) sampleManager).2.sched
        = some ("u", 3, 3000) ∧
      WebSocketManager.alookup "u"
        (WebSocketManager.step (.wsClose 0 "u" false) sampleManager).1.attempts = some 3) ∧
    ((WebSocketManager.step (.wsClose 0 "u" true) sampleManager).2.sched = none) ∧
    (WebSocketManager.alookup "u"
        (WebSocketManager.step (.wsOpen 0 "u") sampleManager).1.attempts = some 0) ∧
    (WebSocketManager.alookup "v" sampleManager.attempts = some 5) ∧ 5 ≤ 5 ∧
    ((WebSocketManager.step (.wsClose 1 "v" false) sampleManager).2.sched = none) ∧
    (WebSocketManager.alookup "w" sampleManager.attempts = none) ∧
    ((WebSocketManager.step (.wsClose 0 "w" false) sampleManager).2.sched = none) :=
  ⟨by decide, by decide,
    (wsManager_reconnect_policy sampleManager 0 "u" 2).1 (by decide) (by decide),
    (wsManager_reconnect_policy sampleManager 0 "u" 2).2.1,
    (wsManager_reconnect_policy sampleManager 0 "u" 2).2.2.1,
    by decide, by decide,
    (wsManager_reconnect_policy sampleManager 1 "v" 5).2.2.2.1 (by decide) (by decide),
    by decide,
    (wsManager_reconnect_policy sampleManager 0 "w" 0).2.2.2.2 (by decide)⟩

/-- C4 counterexample: the very first non-clean closure of a channel that
never opened (its attempt counter has no entry, and `undefined < 5` is
`false`) schedules no reconnect, though the claim calls for a first
attempt after `reconnectDelay * 1 = 1000` ms. -/
theorem wsManager_unopened_close_counterexample :
    (WebSocketManager.step (.wsClose 0 "u" false)
        (WebSocketManager.step (.connect "u") WebSocketManager.Manager.init).1).2.sched
      = none ∧
    (WebSocketManager.step (.wsClose 0 "u" false)
        (WebSocketManager.step (.connect "u") WebSocketManager.Manager.init).1).2.sched
      ≠ some ("u", 1, 1000) := by
  exact ⟨by decide, by decide⟩

/-- C8: evaluation at the failing input — a socket that errors and closes
non-cleanly before ever opening.  The failure is reported through
`onError` (asynchronously, as claimed), but the whole run schedules zero
reconnect attempts: the channel dies silently instead of entering the
retrying state, because `reconnectAttempts.get(url)!` is `undefined` and
`undefined < 5` evaluates to `false`. -/
theorem wsManager_first_failure_silent :
    (WebSocketManager.run [.connect "u", .wsError 0 "u", .wsClose 0 "u" false]
        WebSocketManager.Manager.init).2 = [] ∧
    (WebSocketManager.step (.wsError 0 "u")
        (WebSocketManager.step (.connect "u") WebSocketManager.Manager.init).1).2.errorReported
      = true := by
  exact ⟨by decide, by decide⟩

/-! ### Sync Controller hooks (`src/frontend/src/hooks/useApi.ts`)

Each hook's async `execute` is split at its `await requestFn()`: a "start"
step (the synchronous prefix) and a "settle" step (the continuation run
when the promise resolves or rejects, including the `finally` block).  The
`mountedRef` becomes the `mounted` field; the effect cleanup registered on
unmount becomes an `unmount` function on the state — for `usePaginatedApi`
the source registers no cleanup touching `mountedRef`, so its `unmount` is
the identity. -/

/-- The `ApiResponse<T>` shape `{success, data?, error?}` (the unused
`message`/`code`/`timestamp` fields are omitted). -/
structure ApiResponse (T : Type) where
  success : Bool
  data : Option T
  error : Option String
deriving DecidableEq, Repr

/-- The `PaginatedResponse<T>` shape. -/
structure PaginatedResponse (T : Type) where
  items : List T
  total : ℕ
  page : ℕ
  limit : ℕ
  has_next : Bool
  has_prev : Bool
deriving DecidableEq, Repr

/-- Session state shared by `useApi`, `usePollingApi` and
`useDebouncedApi`: the torn-down flag (`mountedRef`, negated) and the
visible `loading` / `data` / `error`. -/
structure SessionState (T : Type) where
  mounted : Bool
  loading : Bool
  data : Option T
  error : Option ApiError
deriving DecidableEq, Repr

/-- The `new Error(response.error || '请求失败')` constructed when a settled
response is unsuccessful or carries no data, as fed to `handleError`. -/
def respError (fallback : String) (r : ApiResponse T) : RawError :=
  { message := r.error.getD fallback, response := none, request := false, category := .server }

namespace useApi

/-- Initial state of the hook. -/
def init : SessionState T := ⟨true, false, none, none⟩

/-- Synchronous prefix of `useApi.execute` up to `await requestFn()`:
bail out when unmounted, else set `loading` and clear `error`.  The Bool
records whether `requestFn` was invoked. -/
def start (s : SessionState T) : SessionState T × Bool :=
  if s.mounted then ({ s with loading := true, error := none }, true)
  else (s, false)

/-- Settlement continuation of `useApi.execute`: on a successful response
with data, store it (and notify `onSuccess`); otherwise normalize an error
(and notify `onError`); the `finally` clears `loading` — every mutation
and notification guarded by `mountedRef`. -/
def settle (resp : Except RawError (ApiResponse T)) (s : SessionState T) :
    SessionState T × Option (T ⊕ ApiError) :=
  let step1 : SessionState T × Option (T ⊕ ApiError) :=
    if s.mounted then
      match resp with
      | .ok r =>
          match r.success, r.data with
          | true, some v => ({ s with data := some v }, some (Sum.inl v))
          | _, _ =>
              let e := apiUtils.handleError (respError "请求失败" r)
              ({ s with error := some e }, some (Sum.inr e))
      | .error err =>
          let e := apiUtils.handleError err
          ({ s with error := some e }, some (Sum.inr e))
    else (s, none)
  (if step1.1.mounted then { step1.1 with loading := false } else step1.1, step1.2)

/-- The unmount effect cleanup: `mountedRef.current = false`. -/
def unmount (s : SessionState T) : SessionState T := { s with mounted := false }

end useApi

namespace usePollingApi

/-- Settlement continuation of `usePollingApi.executeRequest`: like
`useApi` but clearing `error` on success and with no caller callbacks. -/
def settle (resp : Except RawError (ApiResponse T)) (s : SessionState T) : SessionState T :=
  let step1 : SessionState T :=
    if s.mounted then
      match resp with
      | .ok r =>
          match r.success, r.data with
          | true, some v => { s with data := some v, error := none }
          | _, _ => { s with error := some (apiUtils.handleError (respError "请求失败" r)) }
      | .error err => { s with error := some (apiUtils.handleError err) }
    else s
  if step1.mounted then { step1 with loading := false } else step1

/-- The unmount effect cleanup: clears the interval timer and sets
`mountedRef.current = false`. -/
def unmount (s : SessionState T) : SessionState T := { s with mounted := false }

end usePollingApi

namespace usePaginatedApi

/-- State of `usePaginatedApi`: cursor (`currentPage`, `currentLimit`),
loaded items, total count, and the session fields. -/
structure State (T : Type) where
  mounted : Bool
  loading : Bool
  data : List T
  totalCount : ℕ
  currentPage : ℕ
  currentLimit : ℕ
  error : Option ApiError
deriving DecidableEq, Repr

/-- Initial state (`initialPage = 1`, `initialLimit = 20`). -/
def init (initialPage : ℕ := 1) (initialLimit : ℕ := 20) : State T :=
  ⟨true, false, [], 0, initialPage, initialLimit, none⟩

/-- Synchronous prefix of `loadPage(page, limit)` up to
`await requestFn(page, limit)`. -/
def loadPageStart (s : State T) : State T × Bool :=
  if s.mounted then ({ s with loading := true, error := none }, true)
  else (s, false)

/-- Settlement continuation of `loadPage(page, limit)`: on success store
items, total and the new cursor; on failure normalize the error; the
`finally` clears `loading` — all guarded by `mountedRef`. -/
def loadPageSettle (page limit : ℕ)
    (resp : Except RawError (ApiResponse (PaginatedResponse T))) (s : State T) : State T :=
  let step1 : State T :=
    if s.mounted then
      match resp with
      | .ok r =>
          match r.success, r.data with
          | true, some pd =>
              { s with data := pd.items, totalCount := pd.total,
                       currentPage := page, currentLimit := limit }
          | _, _ => { s with error := some (apiUtils.handleError (respError "加载失败" r)) }
      | .error err => { s with error := some (apiUtils.handleError err) }
    else s
  if step1.mounted then { step1 with loading := false } else step1

/-- `hasNextPage`: `(currentPage - 1) * currentLimit + data.length < totalCount`. -/
def hasNextPage (s : State T) : Bool :=
  decide ((s.currentPage - 1) * s.currentLimit + s.data.length < s.totalCount)

/-- `nextPage()`: when another page exists, request
`loadPage(currentPage + 1, currentLimit)`; the result is the (page, limit)
pair passed to `loadPage`, or `none` when no load is issued. -/
def nextPage (s : State T) : Option (ℕ × ℕ) :=
  if hasNextPage s then some (s.currentPage + 1, s.currentLimit) else none

/-- `prevPage()`: when `currentPage > 1`, request
`loadPage(currentPage - 1, currentLimit)`. -/
def prevPage (s : State T) : Option (ℕ × ℕ) :=
  if 1 < s.currentPage then some (s.currentPage - 1, s.currentLimit) else none

/-- `usePaginatedApi`'s only effect (`useEffect(() => { loadPage(); },
[loadPage])`) registers **no** cleanup: unmounting runs no code of the
hook, so `mountedRef` keeps its value. -/
def unmount (s : State T) : State T := s

end usePaginatedApi

namespace useCachedApi

/-- State of `useCachedApi`: session fields plus `lastUpdated`. -/
structure CachedState (T : Type) where
  mounted : Bool
  loading : Bool
  data : Option T
  error : Option ApiError
  lastUpdated : Option ℤ
deriving DecidableEq, Repr

/-- Initial state of the hook. -/
def init : CachedState T := ⟨true, false, none, none, none⟩

/-- A parsed persisted cache record `{data, timestamp}` stored under
`cache_${key}` in `localStorage`. -/
structure LSEntry (T : Type) where
  data : T
  timestamp : ℤ
deriving DecidableEq, Repr

/-- The freshness test on a parsed record:
`parsed.timestamp && (!ttl || Date.now() - parsed.timestamp < ttl * 1000)`
— a JavaScript-falsy `ttl` (absent or zero) makes any record with a
truthy timestamp fresh forever. -/
def fresh (e : LSEntry T) (now : ℤ) (ttl : Option ℤ) : Bool :=
  decide (e.timestamp ≠ 0) &&
    (match ttl with
      | none => true
      | some t => decide (t = 0) || decide (now - e.timestamp < t * 1000))

/-- Synchronous prefix of `useCachedApi.execute(forceRefresh)` up to
`await requestFn()`: bail out when unmounted; unless forced, a fresh
parsed record resolves from cache (setting data, lastUpdated and clearing
loading) without invoking `requestFn`; otherwise set `loading`, clear
`error` and invoke it (the Bool). -/
def start (force : Bool) (cached : Option (LSEntry T)) (now : ℤ) (ttl : Option ℤ)
    (s : CachedState T) : CachedState T × Bool :=
  if s.mounted then
    match force, cached with
    | false, some e =>
        if fresh e now ttl then
          ({ s with data := some e.data, lastUpdated := some e.timestamp, loading := false },
            false)
        else ({ s with loading := true, error := none }, true)
    | _, _ => ({ s with loading := true, error := none }, true)
  else (s, false)

/-- Settlement continuation of `useCachedApi.execute`: a successful
response stores the data, stamps `lastUpdated` and writes
`{data, timestamp}` back to `localStorage`; failures normalize to the
session error; the `finally` clears `loading` — all guarded by
`mountedRef`.  The second component is the persisted record after the
call. -/
def settle (resp : Except RawError (ApiResponse T)) (now : ℤ)
    (cached : Option (LSEntry T)) (s : CachedState T) :
    CachedState T × Option (LSEntry T) :=
  let step1 : CachedState T × Option (LSEntry T) :=
    if s.mounted then
      match resp with
      | .ok r =>
          match r.success, r.data with
          | true, some v =>
              ({ s with data := some v, lastUpdated := some now }, some ⟨v, now⟩)
          | _, _ =>
              ({ s with error := some (apiUtils.handleError (respError "请求失败" r)) }, cached)
      | .error err => ({ s with error := some (apiUtils.handleError err) }, cached)
    else (s, cached)
  (if step1.1.mounted then { step1.1 with loading := false } else step1.1, step1.2)

/-- Number of `requestFn()` invocations performed by one `execute` call:
the function has a single call site, awaited at most once, reached exactly
when `start` falls through to the network path. -/
def executeInvocations (force : Bool) (cached : Option (LSEntry T)) (now : ℤ)
    (ttl : Option ℤ) (s : CachedState T) : ℕ :=
  if (start force cached now ttl s).2 then 1 else 0

/-- The unmount effect cleanup: `mountedRef.current = false`. -/
def unmount (s : CachedState T) : CachedState T := { s with mounted := false }

end useCachedApi

namespace useDebouncedApi

/-- Body of the debounced (or immediate) execution up to
`await requestFn()`: the timer callback first re-checks `mountedRef`. -/
def start (s : SessionState T) : SessionState T × Bool :=
  if s.mounted then ({ s with loading := true, error := none }, true)
  else (s, false)

/-- Settlement continuation, identical in both the debounced and the
immediate branch of the source. -/
def settle (resp : Except RawError (ApiResponse T)) (s : SessionState T) : SessionState T :=
  let step1 : SessionState T :=
    if s.mounted then
      match resp with
      | .ok r =>
          match r.success, r.data with
          | true, some v => { s with data := some v }
          | _, _ => { s with error := some (apiUtils.handleError (respError "请求失败" r)) }
      | .error err => { s with error := some (apiUtils.handleError err) }
    else s
  if step1.mounted then { step1 with loading := false } else step1

/-- The unmount effect cleanup: clears the pending timeout and sets
`mountedRef.current = false`. -/
def unmount (s : SessionState T) : SessionState T := { s with mounted := false }

end useDebouncedApi

/-- A transport-level failure (`error.request` truthy, no response), as
produced by an unreachable server. -/
def networkFailure : RawError := ⟨"Network Error", none, true, .network⟩

/-- C1: evaluation at the failing input.  `usePaginatedApi` declares
`mountedRef` and guards every settlement mutation with it, but its only
effect registers no cleanup, so detaching never sets the torn-down flag:
after a load is started and the consumer unmounts, the flag still reads
attached, and a late successful settlement overwrites the visible data
(from `[]` to the response items) — the other four hooks set the flag in
their cleanup, making their identical guards effective. -/
theorem usePaginatedApi_detach_leaves_guard_dead :
    (usePaginatedApi.unmount (usePaginatedApi.loadPageStart
        (usePaginatedApi.init 1 20 : usePaginatedApi.State ℕ)).1).mounted = true ∧
    (usePaginatedApi.unmount (usePaginatedApi.loadPageStart
        (usePaginatedApi.init 1 20 : usePaginatedApi.State ℕ)).1).data = ([] : List ℕ) ∧
    (usePaginatedApi.loadPageSettle 1 20
        (.ok ⟨true, some ⟨[1, 2, 3], 3, 1, 20, false, false⟩, none⟩)
        (usePaginatedApi.unmount (usePaginatedApi.loadPageStart
          (usePaginatedApi.init 1 20 : usePaginatedApi.State ℕ)).1)).data = [1, 2, 3] ∧
    (useApi.unmount (useApi.init : SessionState ℕ)).mounted = false ∧
    (usePollingApi.unmount (useApi.init : SessionState ℕ)).mounted = false ∧
    (useCachedApi.unmount (useCachedApi.init : useCachedApi.CachedState ℕ)).mounted = false ∧
    (useDebouncedApi.unmount (useApi.init : SessionState ℕ)).mounted = false :=
  ⟨rfl, rfl, rfl, rfl, rfl, rfl, rfl⟩

/-- C9: pagination boundary behaviour — `prevPage` on page 1 issues no
load; `nextPage` issues none once
`(currentPage - 1) * currentLimit + data.length ≥ totalCount`; otherwise
`prevPage` loads page `currentPage - 1` and `nextPage` loads page
`currentPage + 1`, both at the current limit. -/
theorem usePaginatedApi_boundaries (s : usePaginatedApi.State T) :
    (s.currentPage = 1 → usePaginatedApi.prevPage s = none) ∧
    (s.totalCount ≤ (s.currentPage - 1) * s.currentLimit + s.data.length →
      usePaginatedApi.nextPage s = none) ∧
    (1 < s.currentPage →
      usePaginatedApi.prevPage s = some (s.currentPage - 1, s.currentLimit)) ∧
    ((s.currentPage - 1) * s.currentLimit + s.data.length < s.totalCount →
      usePaginatedApi.nextPage s = some (s.currentPage + 1, s.currentLimit)) := by
  refine ⟨fun h => ?_, fun h => ?_, fun h => ?_, fun h => ?_⟩
  · simp [usePaginatedApi.prevPage, h]
  · have hb : usePaginatedApi.hasNextPage s = false := by
      unfold usePaginatedApi.hasNextPage
      simp only [decide_eq_false_iff_not]
      exact Nat.not_lt.mpr h
    simp [usePaginatedApi.nextPage, hb]
  · simp [usePaginatedApi.prevPage, h]
  · have hb : usePaginatedApi.hasNextPage s = true := by
      unfold usePaginatedApi.hasNextPage
      exact decide_eq_true h
    simp [usePaginatedApi.nextPage, hb]

/-- Witness for C9: page 1 with all 3 of 3 items loaded — both cursors
refuse to move; page 2 of a 100-item listing at limit 10 — both move. -/
theorem usePaginatedApi_boundaries_witness :
    (usePaginatedApi.prevPage (⟨true, false, [0, 1, 2], 3, 1, 20, none⟩ :
        usePaginatedApi.State ℕ) = none) ∧
    (usePaginatedApi.nextPage (⟨true, false, [0, 1, 2], 3, 1, 20, none⟩ :
        usePaginatedApi.State ℕ) = none) ∧
    (usePaginatedApi.prevPage (⟨true, false, [0, 1, 2, 3, 4], 100, 2, 10, none⟩ :
        usePaginatedApi.State ℕ) = some (1, 10)) ∧
    (usePaginatedApi.nextPage (⟨true, false, [0, 1, 2, 3, 4], 100, 2, 10, none⟩ :
        usePaginatedApi.State ℕ) = some (3, 10)) :=
  ⟨(usePaginatedApi_boundaries _).1 rfl,
    (usePaginatedApi_boundaries _).2.1 (by decide),
    (usePaginatedApi_boundaries _).2.2.1 (by decide),
    (usePaginatedApi_boundaries _).2.2.2 (by decide)⟩

/-- C6 counterexample: a cache-miss `execute` invokes the underlying
operation exactly once, even when it fails — it does not route through the
Retry Executor, whose default bound would perform 3 attempts on the same
always-failing operation. -/
theorem useCachedApi_no_retry_counterexample :
    (useCachedApi.executeInvocations false none 0 (some 5)
        (useCachedApi.init : useCachedApi.CachedState ℕ)) = 1 ∧
    (apiUtils.retryRequest (fun _ => (Except.error networkFailure : Except RawError ℕ))
        3 1000).attempts = 3 ∧
    (1 : ℕ) ≠ 3 := by
  refine ⟨rfl, ?_, by decide⟩
  unfold apiUtils.retryRequest
  rw [retryGo_allFail (fun _ => (Except.error networkFailure : Except RawError ℕ))
    (fun _ => networkFailure) (fun _ => rfl) 3 1000 3 0 none [] rfl]

/-- C6 (amended): cached fetch checks the persisted cache first — a fresh
record resolves from cache without invoking the underlying operation; a
miss (or explicit force-refresh) executes the operation **directly,
exactly once** (not via the Retry Executor) and, on success, writes
`{data, timestamp}` back before resolving, freshness being judged against
the TTL at read time.  With TTL 5 s: a first call on an empty cache
invokes the operation; a second call within 5 s resolves from the
written-back record with zero invocations; a call at or after the 5 s
boundary invokes it again. -/
theorem useCachedApi_cache_first (T : Type) :
    (∀ (e : useCachedApi.LSEntry T) (s : useCachedApi.CachedState T) (now : ℤ)
        (ttl : Option ℤ),
      s.mounted = true → useCachedApi.fresh e now ttl = true →
      useCachedApi.start false (some e) now ttl s =
        ({ s with data := some e.data, lastUpdated := some e.timestamp, loading := false },
          false)) ∧
    (∀ (s : useCachedApi.CachedState T) (now : ℤ) (ttl : Option ℤ),
      s.mounted = true →
      useCachedApi.start false none now ttl s =
        ({ s with loading := true, error := none }, true)) ∧
    (∀ (c : Option (useCachedApi.LSEntry T)) (s : useCachedApi.CachedState T) (now : ℤ)
        (ttl : Option ℤ),
      s.mounted = true →
      useCachedApi.start true c now ttl s =
        ({ s with loading := true, error := none }, true)) ∧
    (∀ (v : T) (s : useCachedApi.CachedState T) (now : ℤ)
        (c : Option (useCachedApi.LSEntry T)),
      s.mounted = true →
      useCachedApi.settle (.ok ⟨true, some v, none⟩) now c s =
        ({ s with data := some v, lastUpdated := some now, loading := false },
          some ⟨v, now⟩)) ∧
    (∀ (v : T) (t0 t1 t2 : ℤ) (s : useCachedApi.CachedState T),
      s.mounted = true → t0 ≠ 0 → t1 - t0 < 5000 → 5000 ≤ t2 - t0 →
      useCachedApi.executeInvocations false none t0 (some 5) s = 1 ∧
      useCachedApi.executeInvocations false (some ⟨v, t0⟩) t1 (some 5) s = 0 ∧
      useCachedApi.executeInvocations false (some ⟨v, t0⟩) t2 (some 5) s = 1) := by
  refine ⟨?_, ?_, ?_, ?_, ?_⟩
  · intro e s now ttl hm hf
    simp [useCachedApi.start, hm, hf]
  · intro s now ttl hm
    simp [useCachedApi.start, hm]
  · intro c s now ttl hm
    cases c <;> simp [useCachedApi.start, hm]
  · intro v s now c hm
    simp [useCachedApi.settle, hm]
  · intro v t0 t1 t2 s hm ht0 h1 h2
    refine ⟨?_, ?_, ?_⟩
    · simp [useCachedApi.executeInvocations, useCachedApi.start, hm]
    · have hf : useCachedApi.fresh (⟨v, t0⟩ : useCachedApi.LSEntry T) t1 (some 5) = true := by
        simp [useCachedApi.fresh, ht0]
        omega
      simp [useCachedApi.executeInvocations, useCachedApi.start, hm, hf]
    · have hf : useCachedApi.fresh (⟨v, t0⟩ : useCachedApi.LSEntry T) t2 (some 5) = false := by
        simp [useCachedApi.fresh, ht0]
        omega
      simp [useCachedApi.executeInvocations, useCachedApi.start, hm, hf]

/-- Witness for the amended C6 with TTL 5 s: a record written at 1000 ms
is fresh at 4000 ms (cache hit, zero invocations) and stale at 7000 ms
(one invocation); empty cache and force-refresh both invoke; a success at
9000 ms writes `{data, timestamp}` back. -/
theorem useCachedApi_cache_first_witness :
    ((useCachedApi.init : useCachedApi.CachedState ℕ).mounted = true) ∧
    (useCachedApi.fresh (⟨42, 1000⟩ : useCachedApi.LSEntry ℕ) 4000 (some 5) = true) ∧
    (useCachedApi.start false (some ⟨42, 1000⟩) 4000 (some 5)
        (useCachedApi.init : useCachedApi.CachedState ℕ) =
      (⟨true, false, some 42, none, some 1000⟩, false)) ∧
    (useCachedApi.start false none 4000 (some 5)
        (useCachedApi.init : useCachedApi.CachedState ℕ) =
      (⟨true, true, none, none, none⟩, true)) ∧
    (useCachedApi.start true (some ⟨42, 1000⟩) 4000 (some 5)
        (useCachedApi.init : useCachedApi.CachedState ℕ) =
      (⟨true, true, none, none, none⟩, true)) ∧
    (useCachedApi.settle (.ok ⟨true, some 7, none⟩) 9000 none
        (useCachedApi.init : useCachedApi.CachedState ℕ) =
      (⟨true, false, some 7, none, some 9000⟩, some ⟨7, 9000⟩)) ∧
    (useCachedApi.executeInvocations false none 1000 (some 5)
        (useCachedApi.init : useCachedApi.CachedState ℕ) = 1 ∧
      useCachedApi.executeInvocations false (some ⟨42, 1000⟩) 4000 (some 5)
        (useCachedApi.init : useCachedApi.CachedState ℕ) = 0 ∧
      useCachedApi.executeInvocations false (some ⟨42, 1000⟩) 7000 (some 5)
        (useCachedApi.init : useCachedApi.CachedState ℕ) = 1) :=
  ⟨rfl, by decide,
    (useCachedApi_cache_first ℕ).1 ⟨42, 1000⟩ useCachedApi.init 4000 (some 5) rfl (by decide),
    (useCachedApi_cache_first ℕ).2.1 useCachedApi.init 4000 (some 5) rfl,
    (useCachedApi_cache_first ℕ).2.2.1 (some ⟨42, 1000⟩) useCachedApi.init 4000 (some 5) rfl,
    (useCachedApi_cache_first ℕ).2.2.2.1 7 useCachedApi.init 9000 none rfl,
    (useCachedApi_cache_first ℕ).2.2.2.2 42 1000 4000 7000 useCachedApi.init rfl
      (by decide) (by decide) (by decide)⟩
